import Mathlib

/-!
# Verification of the airship terrain engine (`src/engine/Planet.js`)

A shallow embedding of the terrain engine of the repository: the per-frame
GPU compute kernel (`computeUpdate`), the fragment color stage (`colorNode`),
the retro dither/posterize filter (`applyRetroEffects`), the fractal noise
sum (`fbm`) and the shadow decal math, all translated from the second
(compute-based) version of `Planet.js`, together with the per-frame uniform
updates performed by `ThreeEngine.animate`.

Modelling conventions:
* GPU floats are modelled as exact rationals (`ℚ`).
* The gradient-noise primitive `cnoise` lives in `perlin.js`, which is not
  part of the sources under study; every definition that needs it takes an
  arbitrary noise function `ν : Vec3 → ℚ` as a parameter, so every theorem
  below holds for the real `cnoise` in particular.
* The Euclidean length `vec2.length()` is the only non-rational primitive
  used by the shaders; the definitions take the length function
  `len : ℚ × ℚ → ℚ` as a parameter (applied to the coordinate difference,
  exactly as the shader applies `.sub(...).length()`).  Both shader stages
  receive the *same* `len`, mirroring the fact that both run the same
  WGSL built-in.
* `sin`/`cos` of the shadow yaw uniform enter the shader only through the
  pair `(sinA, cosA) = (angle.sin(), angle.cos())`; the color-stage
  definitions take this pair as parameters.
-/

namespace Airship

/-- A 3-component vector of rationals, standing for a GPU `vec3`. -/
structure Vec3 where
  x : ℚ
  y : ℚ
  z : ℚ
deriving DecidableEq

instance : Add Vec3 := ⟨fun a b => ⟨a.x + b.x, a.y + b.y, a.z + b.z⟩⟩

/-- A 4-component vector of rationals, standing for a GPU `vec4`
(`w` is the alpha channel). -/
structure Vec4 where
  x : ℚ
  y : ℚ
  z : ℚ
  w : ℚ
deriving DecidableEq

/-- The `rgb` swizzle of a `vec4`. -/
def Vec4.rgb (v : Vec4) : Vec3 := ⟨v.x, v.y, v.z⟩

/-- GLSL/WGSL `floor`, returning it as a rational. -/
def qfloor (q : ℚ) : ℚ := (⌊q⌋ : ℤ)

/-- WGSL `i32(...)` conversion of a float: truncation toward zero. -/
def itrunc (q : ℚ) : ℤ := if 0 ≤ q then ⌊q⌋ else ⌈q⌉

/-- GLSL/TSL `saturate`: clamp to `[0, 1]`. -/
def saturate (q : ℚ) : ℚ := min (max q 0) 1

/-- GLSL/TSL `smoothstep(e0, e1, x)`:
`t = clamp((x − e0)/(e1 − e0), 0, 1)` followed by `t·t·(3 − 2·t)`. -/
def smoothstep (e0 e1 x : ℚ) : ℚ :=
  let t := saturate ((x - e0) / (e1 - e0))
  t * t * (3 - 2 * t)

/-- GLSL/TSL `mix(x, y, a) = x·(1 − a) + y·a` on scalars. -/
def qmix (x y a : ℚ) : ℚ := x * (1 - a) + y * a

/-- Componentwise `mix` on `vec3` colors. -/
def mix3 (a b : Vec3) (t : ℚ) : Vec3 :=
  ⟨qmix a.x b.x t, qmix a.y b.y t, qmix a.z b.z t⟩

/-- The fixed 8×8 Bayer ordered-dither matrix of `Planet.js`
(`bayerMatrixNodes`, row-major, 64 constants `k/64`). -/
def bayerMatrix : List ℚ :=
  [0/64, 48/64, 12/64, 60/64, 3/64, 51/64, 15/64, 63/64,
   32/64, 16/64, 44/64, 28/64, 35/64, 19/64, 47/64, 31/64,
   8/64, 56/64, 4/64, 52/64, 11/64, 59/64, 7/64, 55/64,
   40/64, 24/64, 36/64, 20/64, 43/64, 27/64, 39/64, 23/64,
   2/64, 50/64, 14/64, 62/64, 1/64, 49/64, 13/64, 61/64,
   34/64, 18/64, 46/64, 30/64, 33/64, 17/64, 45/64, 29/64,
   10/64, 58/64, 6/64, 54/64, 9/64, 57/64, 5/64, 53/64,
   42/64, 26/64, 38/64, 22/64, 41/64, 25/64, 37/64, 21/64]

/-- Reading `bayerArray.element(index)`: read the matrix at an integer index. -/
def bayerAt (i : ℤ) : ℚ := bayerMatrix.getD i.toNat 0

/-- The dither index of a screen pixel:
`x = int(pixelPos.x) mod 8`, `y = int(pixelPos.y) mod 8`, `index = y·8 + x`
(WGSL `%` on integers truncates toward zero, i.e. `Int.tmod`). -/
def bayerIndex (pixelPos : ℚ × ℚ) : ℤ :=
  let x := Int.tmod (itrunc pixelPos.1) 8
  let y := Int.tmod (itrunc pixelPos.2) 8
  y * 8 + x

/-- The filter `applyRetroEffects(inputColor, colorNum)` of `Planet.js`: add the
per-pixel dither offset `(threshold − 0.8) · 0.6` to every channel, then
posterize each channel by `floor(c·levels + 0.5)/levels` with
`levels = colorNum − 1`. -/
def applyRetroEffects (pixelPos : ℚ × ℚ) (inputColor : Vec3) (colorNum : ℚ) :
    Vec3 :=
  let threshold := bayerAt (bayerIndex pixelPos)
  let ditherStrength : ℚ := 6/10
  let d := (threshold - 8/10) * ditherStrength
  let levels := colorNum - 1
  let q := fun ch : ℚ => qfloor ((ch + d) * levels + 1/2) / levels
  ⟨q inputColor.x, q inputColor.y, q inputColor.z⟩

/-- The uniform block of `Planet.setupUniforms` (second version).
`octaves` is an integer uniform; everything else is a float/vector uniform.
The shadow yaw uniform `uShadowRotation` enters the shader only through its
sine and cosine, which the color-stage definitions take as parameters. -/
structure Uniforms where
  octaves : ℤ
  frequency : ℚ
  amplitude : ℚ
  lacunarity : ℚ
  persistence : ℚ
  heightScale : ℚ
  heightOffset : ℚ
  waterFloor : ℚ
  uSegmentSize : ℚ
  uCameraPosition : Vec3
  uSandStart : ℚ
  uSandEnd : ℚ
  uGrassStart : ℚ
  uGrassEnd : ℚ
  uRockStart : ℚ
  uRockEnd : ℚ
  uHorizonDist : ℚ
  uHorizonCurve : ℚ
  uFogColor : Vec3
  uFogNear : ℚ
  uFogFar : ℚ
  uShadowPosition : Vec3
  uShadowOffset : ℚ
  uShadowRadius : ℚ
  uShadowOpacity : ℚ
deriving DecidableEq

/-- The texture set bound by `setupTextures`; each texture is modelled as a
function from a UV coordinate to the sampled `vec4` texel. -/
structure Textures where
  water : ℚ × ℚ → Vec4
  sand : ℚ × ℚ → Vec4
  grass : ℚ × ℚ → Vec4
  rock : ℚ × ℚ → Vec4
  airshipShadow : ℚ × ℚ → Vec4

/-- The body of the `fbm` loop, iterated a fixed number of times:
each step samples `ν` at `(p.x·currFreq, 0, p.z·currFreq)`, accumulates
`noiseVal·currAmp` and multiplies the frequency by `lacunarity` and the
amplitude by `persistence`. -/
def fbmLoop (ν : Vec3 → ℚ) (p : Vec3) (lacunarity persistence : ℚ) :
    ℕ → ℚ → ℚ → ℚ → ℚ
  | 0, _, _, total => total
  | n + 1, currFreq, currAmp, total =>
      let noiseVal := ν ⟨p.x * currFreq, 0, p.z * currFreq⟩
      fbmLoop ν p lacunarity persistence n
        (currFreq * lacunarity) (currAmp * persistence)
        (total + noiseVal * currAmp)

/-- The function `fbm(pos, octaves, frequency, amplitude, lacunarity, persistence)` of
`Planet.js`.  The TSL `Loop({ start: 0, end: octaves })` runs its body once
for each integer `0 ≤ i < octaves`, i.e. `octaves.toNat` times (zero times
when `octaves ≤ 0`); the accumulator starts at `0.0`. -/
def fbm (ν : Vec3 → ℚ) (pos : Vec3) (octaves : ℤ)
    (frequency amplitude lacunarity persistence : ℚ) : ℚ :=
  fbmLoop ν pos lacunarity persistence octaves.toNat frequency amplitude 0

/-- The per-vertex compute kernel `computeUpdate` of `Planet.js`
(lines 312–345): snap the tile to the camera's grid cell, sample `fbm` at
the snapped world position, apply the height offset/scale, subtract the
horizon-curvature drop from both the raw height and the water floor, take
the max, and write `(worldPos.x, finalHeight, worldPos.z)`. -/
def computeUpdate (ν : Vec3 → ℚ) (len : ℚ × ℚ → ℚ) (u : Uniforms)
    (localPos : Vec3) : Vec3 :=
  let snapX := qfloor (u.uCameraPosition.x / u.uSegmentSize) * u.uSegmentSize
  let snapZ := qfloor (u.uCameraPosition.z / u.uSegmentSize) * u.uSegmentSize
  let worldOffset : Vec3 := ⟨snapX, 0, snapZ⟩
  let worldPos := localPos + worldOffset
  let noiseValue := fbm ν worldPos u.octaves u.frequency u.amplitude
    u.lacunarity u.persistence
  let rawHeight := (noiseValue + u.heightOffset) * u.heightScale
  let distToCam :=
    len (worldPos.x - u.uCameraPosition.x, worldPos.z - u.uCameraPosition.z)
  let normalizedDist := distToCam / u.uHorizonDist
  let drop := normalizedDist ^ 4 * u.uHorizonCurve * 100
  let curvedHeight := rawHeight - drop
  let curvedWaterFloor := u.waterFloor - drop
  let finalHeight := max curvedHeight curvedWaterFloor
  ⟨worldPos.x, finalHeight, worldPos.z⟩

/-- The fragment color stage `colorNode` of `Planet.js` (lines 374–449),
translated line by line: reconstruct the curvature-corrected height from the
interpolated world position, blend the four biome textures, mix in fog,
apply the retro filter, then compute the rotated/scaled shadow decal factor
and darken the retro color by it.  Only the `rgb` channels of the blended
color feed the output (the shader returns `vec4(retroColor.rgb, 1.0)`). -/
def colorNode (len : ℚ × ℚ → ℚ) (tex : Textures) (sinA cosA : ℚ)
    (u : Uniforms) (pixelPos : ℚ × ℚ) (pos : Vec3) : Vec4 :=
  let dist := len (pos.x - u.uCameraPosition.x, pos.z - u.uCameraPosition.z)
  let normalizedDist := dist / u.uHorizonDist
  let drop := normalizedDist ^ 4 * u.uHorizonCurve * 100
  let h := pos.y + drop
  let worldUV := (pos.x * (1/4), pos.z * (1/4))
  let waterWorldUV := (pos.x * 1, pos.z * 1)
  let tWater := tex.water waterWorldUV
  let tSand := tex.sand worldUV
  let tGrass := tex.grass worldUV
  let tRock := tex.rock worldUV
  let c1 := mix3 tWater.rgb tSand.rgb (smoothstep u.uSandStart u.uSandEnd h)
  let c2 := mix3 c1 tGrass.rgb (smoothstep u.uGrassStart u.uGrassEnd h)
  let c3 := mix3 c2 tRock.rgb (smoothstep u.uRockStart u.uRockEnd h)
  let fogFactor := smoothstep u.uFogNear u.uFogFar dist
  let finalColor := mix3 c3 u.uFogColor fogFactor
  let colorNum : ℚ := 4
  let retroColor := applyRetroEffects pixelPos finalColor colorNum
  let relPos := (pos.x - u.uShadowPosition.x, pos.z - u.uShadowPosition.z)
  let rotatedX := relPos.1 * cosA - relPos.2 * sinA
  let rotatedZ := relPos.1 * sinA + relPos.2 * cosA
  let rotatedPos := (rotatedX, rotatedZ + u.uShadowOffset)
  let distFromShip :=
    len (pos.x - u.uCameraPosition.x, pos.z - u.uCameraPosition.z)
  let normDist := distFromShip / u.uHorizonDist
  let sCurveDrop := normDist ^ 4 * u.uHorizonCurve * 100
  let hShadow := pos.y + sCurveDrop
  let shipHeight := u.uShadowPosition.y - hShadow
  let shadowScale := max (shipHeight / 10 + 1) (1/10)
  let finalShadowSize := max (u.uShadowRadius * 2 * shadowScale) (1/10)
  let shadowUV :=
    (rotatedPos.1 / finalShadowSize + 1/2, rotatedPos.2 / finalShadowSize + 1/2)
  let shadowAlpha :=
    if 0 < shadowUV.1 ∧ shadowUV.1 < 1 ∧ 0 < shadowUV.2 ∧ shadowUV.2 < 1 then
      (tex.airshipShadow shadowUV).w
    else 0
  let heightFade := smoothstep 35 2 shipHeight
  let finalShadowFactor := saturate (shadowAlpha * u.uShadowOpacity * heightFade)
  let outColor := ⟨retroColor.x * (1 - finalShadowFactor),
    retroColor.y * (1 - finalShadowFactor),
    retroColor.z * (1 - finalShadowFactor)⟩
  ⟨Vec3.x outColor, Vec3.y outColor, Vec3.z outColor, 1⟩

/-! ## Named stages of the two shader programs

The following definitions name the sub-computations of `computeUpdate` and
`colorNode` that the individual properties talk about.  Each mirrors the
same source lines as the corresponding slice of the monolithic definitions
above; the theorems below relate them to the monoliths. -/

/-- The per-frame snap offset: `floor(camera/cellSize)·cellSize` on x and z
(lines 317–318). -/
def snapOffset (u : Uniforms) : ℚ × ℚ :=
  (qfloor (u.uCameraPosition.x / u.uSegmentSize) * u.uSegmentSize,
   qfloor (u.uCameraPosition.z / u.uSegmentSize) * u.uSegmentSize)

/-- The grid cell size: `planeWidth / planeWidthSegments = 512 / 100`,
the constructor constants feeding the `uSegmentSize` uniform. -/
def cellSize : ℚ := 512 / 100

/-- The horizon-curvature drop of a world position:
`(length(pos.xz − camera.xz) / uHorizonDist)^4 · uHorizonCurve · 100`,
computed identically in the compute stage (lines 335–337) and in the color
stage (lines 376–380 and 421–423). -/
def curveDrop (len : ℚ × ℚ → ℚ) (u : Uniforms) (pos : Vec3) : ℚ :=
  let dist := len (pos.x - u.uCameraPosition.x, pos.z - u.uCameraPosition.z)
  let normalizedDist := dist / u.uHorizonDist
  normalizedDist ^ 4 * u.uHorizonCurve * 100

/-- The uncurved raw height the compute stage assigns to a base vertex:
`(fbm(base + snapOffset) + heightOffset) · heightScale` (lines 323–332). -/
def rawHeightOf (ν : Vec3 → ℚ) (u : Uniforms) (base : Vec3) : ℚ :=
  let worldPos := base + Vec3.mk (snapOffset u).1 0 (snapOffset u).2
  (fbm ν worldPos u.octaves u.frequency u.amplitude u.lacunarity u.persistence
    + u.heightOffset) * u.heightScale

/-- The final (curved, water-clamped) height the compute stage assigns to a
base vertex: `max(rawHeight − drop, waterFloor − drop)` (lines 339–341). -/
def finalHeightOf (ν : Vec3 → ℚ) (len : ℚ × ℚ → ℚ) (u : Uniforms)
    (base : Vec3) : ℚ :=
  let worldPos := base + Vec3.mk (snapOffset u).1 0 (snapOffset u).2
  let drop := curveDrop len u worldPos
  max (rawHeightOf ν u base - drop) (u.waterFloor - drop)

/-- The height the color stage reconstructs for shading:
`h = pos.y + drop` (lines 376–381; recomputed identically as `hShadow`
at lines 421–424). -/
def shadingHeight (len : ℚ × ℚ → ℚ) (u : Uniforms) (pos : Vec3) : ℚ :=
  pos.y + curveDrop len u pos

/-- The actor's height above the reconstructed terrain used by the shadow
decal: `uShadowPosition.y − hShadow` (line 426). -/
def shipHeightOf (len : ℚ × ℚ → ℚ) (u : Uniforms) (pos : Vec3) : ℚ :=
  u.uShadowPosition.y - shadingHeight len u pos

/-- The shadow decal's normalizing divisor (lines 429–430):
`max(uShadowRadius · 2 · max(shipHeight/10 + 1, 0.1), 0.1)`. -/
def finalShadowSizeOf (shadowRadius shipHeight : ℚ) : ℚ :=
  max (shadowRadius * 2 * max (shipHeight / 10 + 1) (1/10)) (1/10)

/-- The rotated local shadow coordinate (lines 406–418): subtract the
actor's world xz, rotate by the matrix `[[c, −s], [s, c]]` built from the
yaw uniform's sine and cosine, then add the forward/back offset to the
second component. -/
def shadowCoord (sinA cosA : ℚ) (shadowPosition : Vec3) (shadowOffset : ℚ)
    (pos : Vec3) : ℚ × ℚ :=
  let relPos := (pos.x - shadowPosition.x, pos.z - shadowPosition.z)
  let rotatedX := relPos.1 * cosA - relPos.2 * sinA
  let rotatedZ := relPos.1 * sinA + relPos.2 * cosA
  (rotatedX, rotatedZ + shadowOffset)

/-- Rotation of a plane vector by an angle given through its sine and
cosine: the standard matrix `[[c, −s], [s, c]]`, i.e. rotation *by* the
angle itself (rotation by the negated angle is `rotateBy (−s) c`). -/
def rotateBy (sinA cosA : ℚ) (v : ℚ × ℚ) : ℚ × ℚ :=
  (v.1 * cosA - v.2 * sinA, v.1 * sinA + v.2 * cosA)

/-- Modelled from the spec: the shadow lookup coordinate as §4.4 describes
it — "subtract actor position, then rotate by negative actor yaw" — i.e.
the translated offset rotated by `−yaw` (whose sine is `−sinA` and cosine
is `cosA`), with the same forward/back offset applied afterwards. -/
def shadowCoordSpec (sinA cosA : ℚ) (shadowPosition : Vec3)
    (shadowOffset : ℚ) (pos : Vec3) : ℚ × ℚ :=
  let relPos := (pos.x - shadowPosition.x, pos.z - shadowPosition.z)
  let r := rotateBy (-sinA) cosA relPos
  (r.1, r.2 + shadowOffset)

/-- The normalized shadow lookup UV (lines 406–432): the rotated local
coordinate divided by the guarded shadow size, shifted by `0.5`. -/
def shadowUVof (len : ℚ × ℚ → ℚ) (sinA cosA : ℚ) (u : Uniforms)
    (pos : Vec3) : ℚ × ℚ :=
  let rotatedPos := shadowCoord sinA cosA u.uShadowPosition u.uShadowOffset pos
  let finalShadowSize :=
    finalShadowSizeOf u.uShadowRadius (shipHeightOf len u pos)
  (rotatedPos.1 / finalShadowSize + 1/2, rotatedPos.2 / finalShadowSize + 1/2)

/-- The composited shadow factor (lines 403–443): the decal alpha (zeroed
outside the open unit square), times the opacity uniform, times the
height fade `smoothstep(35, 2, shipHeight)`, saturated. -/
def finalShadowFactorOf (len : ℚ × ℚ → ℚ) (tex : Textures) (sinA cosA : ℚ)
    (u : Uniforms) (pos : Vec3) : ℚ :=
  let shadowUV := shadowUVof len sinA cosA u pos
  let shadowAlpha :=
    if 0 < shadowUV.1 ∧ shadowUV.1 < 1 ∧ 0 < shadowUV.2 ∧ shadowUV.2 < 1 then
      (tex.airshipShadow shadowUV).w
    else 0
  let heightFade := smoothstep 35 2 (shipHeightOf len u pos)
  saturate (shadowAlpha * u.uShadowOpacity * heightFade)

/-- The biome-blended, fog-mixed terrain color (lines 375–397), before the
retro filter and the shadow compositing. -/
def terrainColor (len : ℚ × ℚ → ℚ) (tex : Textures) (u : Uniforms)
    (pos : Vec3) : Vec3 :=
  let dist := len (pos.x - u.uCameraPosition.x, pos.z - u.uCameraPosition.z)
  let h := shadingHeight len u pos
  let worldUV := (pos.x * (1/4), pos.z * (1/4))
  let waterWorldUV := (pos.x * 1, pos.z * 1)
  let tWater := tex.water waterWorldUV
  let tSand := tex.sand worldUV
  let tGrass := tex.grass worldUV
  let tRock := tex.rock worldUV
  let c1 := mix3 tWater.rgb tSand.rgb (smoothstep u.uSandStart u.uSandEnd h)
  let c2 := mix3 c1 tGrass.rgb (smoothstep u.uGrassStart u.uGrassEnd h)
  let c3 := mix3 c2 tRock.rgb (smoothstep u.uRockStart u.uRockEnd h)
  let fogFactor := smoothstep u.uFogNear u.uFogFar dist
  mix3 c3 u.uFogColor fogFactor

/-- Modelled from the spec (§4.3/§4.5): the color pipeline with the retro
filter run *after* shadow compositing, "after all lighting/fog/shadow
compositing, immediately before the fragment's value is finalized" — the
same stages as `colorNode`, but with the shadow darkening applied to the
fogged terrain color first and the retro filter applied last. -/
def colorNodeSpecOrder (len : ℚ × ℚ → ℚ) (tex : Textures) (sinA cosA : ℚ)
    (u : Uniforms) (pixelPos : ℚ × ℚ) (pos : Vec3) : Vec4 :=
  let base := terrainColor len tex u pos
  let f := finalShadowFactorOf len tex sinA cosA u pos
  let shadowed : Vec3 :=
    ⟨base.x * (1 - f), base.y * (1 - f), base.z * (1 - f)⟩
  let retro := applyRetroEffects pixelPos shadowed 4
  ⟨Vec3.x retro, Vec3.y retro, Vec3.z retro, 1⟩

/-- The default uniform values of `Planet.setupUniforms` (with the later
duplicate `uSandStart`/`uSandEnd` entries overriding the earlier ones, as
in a JavaScript object literal) and `uFogColor = #aec7ff`. -/
def defaultUniforms : Uniforms where
  octaves := 2
  frequency := 6/100
  amplitude := 2/10
  lacunarity := 16/10
  persistence := 9/10
  heightScale := 35
  heightOffset := 9/100
  waterFloor := -2
  uSegmentSize := 512 / 100
  uCameraPosition := ⟨0, 0, 0⟩
  uSandStart := -1
  uSandEnd := 15/10
  uGrassStart := 15/10
  uGrassEnd := 3
  uRockStart := 6
  uRockEnd := 8
  uHorizonDist := 116
  uHorizonCurve := 6/100
  uFogColor := ⟨174/255, 199/255, 255/255⟩
  uFogNear := 80
  uFogFar := 150
  uShadowPosition := ⟨0, 0, 0⟩
  uShadowOffset := 0
  uShadowRadius := 4
  uShadowOpacity := 5/10

/-- An all-white opaque texture set, used to evaluate the pipeline at
concrete inputs. -/
def constTex : Textures where
  water := fun _ => ⟨1, 1, 1, 1⟩
  sand := fun _ => ⟨1, 1, 1, 1⟩
  grass := fun _ => ⟨1, 1, 1, 1⟩
  rock := fun _ => ⟨1, 1, 1, 1⟩
  airshipShadow := fun _ => ⟨1, 1, 1, 1⟩

/-- The constantly-zero length function, a convenient concrete
instantiation of the abstract `len` parameter. -/
def len0 : ℚ × ℚ → ℚ := fun _ => 0

/-! ## Helper lemmas -/

theorem Vec3.add_def (a b : Vec3) :
    a + b = ⟨a.x + b.x, a.y + b.y, a.z + b.z⟩ := rfl

/-- The monolithic `colorNode` factors into its named stages: the retro
filter applied to the biome-blended, fog-mixed terrain color, then the
shadow factor darkening each channel, then the alpha set to `1`. -/
theorem colorNode_stage_decomposition (len : ℚ × ℚ → ℚ) (tex : Textures)
    (sinA cosA : ℚ) (u : Uniforms) (pixelPos : ℚ × ℚ) (pos : Vec3) :
    colorNode len tex sinA cosA u pixelPos pos =
      ⟨(applyRetroEffects pixelPos (terrainColor len tex u pos) 4).x *
          (1 - finalShadowFactorOf len tex sinA cosA u pos),
        (applyRetroEffects pixelPos (terrainColor len tex u pos) 4).y *
          (1 - finalShadowFactorOf len tex sinA cosA u pos),
        (applyRetroEffects pixelPos (terrainColor len tex u pos) 4).z *
          (1 - finalShadowFactorOf len tex sinA cosA u pos), 1⟩ := rfl

/-- Snapping a coordinate down to a positive cell size leaves a remainder
in `[0, cellSize)`. -/
theorem snap_remainder (cam c : ℚ) (hc : 0 < c) :
    0 ≤ cam - qfloor (cam / c) * c ∧ cam - qfloor (cam / c) * c < c := by
  have h1 : (⌊cam / c⌋ : ℚ) * c ≤ cam := by
    have := mul_le_mul_of_nonneg_right (Int.floor_le (cam / c)) hc.le
    rwa [div_mul_cancel₀ cam hc.ne'] at this
  have h2 : cam < ((⌊cam / c⌋ : ℚ) + 1) * c := by
    have := mul_lt_mul_of_pos_right (Int.lt_floor_add_one (cam / c)) hc
    rwa [div_mul_cancel₀ cam hc.ne'] at this
  constructor
  · unfold qfloor; linarith
  · unfold qfloor; nlinarith

theorem cellSize_pos : 0 < cellSize := by unfold cellSize; norm_num

/-- Every entry of the Bayer matrix is at most `63/64`. -/
theorem bayerAt_le (i : ℤ) : bayerAt i ≤ 63 / 64 := by
  unfold bayerAt
  rcases lt_or_le i.toNat bayerMatrix.length with h | h
  · rw [List.getD_eq_getElem _ _ h]
    have hmem : bayerMatrix[i.toNat] ∈ bayerMatrix := List.getElem_mem h
    have hall : ∀ x ∈ bayerMatrix, x ≤ 63 / 64 := by
      intro x hx
      simp only [bayerMatrix, List.mem_cons, List.not_mem_nil, or_false] at hx
      rcases hx with h' | h' | h' | h' | h' | h' | h' | h' | h' | h' | h' | h' |
        h' | h' | h' | h' | h' | h' | h' | h' | h' | h' | h' | h' | h' | h' |
        h' | h' | h' | h' | h' | h' | h' | h' | h' | h' | h' | h' | h' | h' |
        h' | h' | h' | h' | h' | h' | h' | h' | h' | h' | h' | h' | h' | h' |
        h' | h' | h' | h' | h' | h' | h' | h' | h' | h' <;> rw [h'] <;> norm_num
    exact hall _ hmem
  · rw [List.getD_eq_getElem?_getD, List.getElem?_eq_none h]
    norm_num

/-- One posterized channel is fixed by the dither-and-posterize transform
when the channel lies on the 4-level lattice and the pixel's threshold is
at least `47/90` (and, as always for Bayer entries, at most `63/64`). -/
theorem retro_channel_fixed (t ch : ℚ) (hk : ∃ k : ℕ, k ≤ 3 ∧ ch = (k : ℚ) / 3)
    (h1 : 47 / 90 ≤ t) (h2 : t ≤ 63 / 64) :
    qfloor ((ch + (t - 8 / 10) * (6 / 10)) * (4 - 1) + 1 / 2) / (4 - 1) = ch := by
  obtain ⟨k, _, rfl⟩ := hk
  have hre : ((k : ℚ) / 3 + (t - 8 / 10) * (6 / 10)) * (4 - 1) + 1 / 2 =
      (k : ℚ) + ((t - 8 / 10) * (9 / 5) + 1 / 2) := by ring
  have hfl : ⌊(k : ℚ) + ((t - 8 / 10) * (9 / 5) + 1 / 2)⌋ = (k : ℤ) := by
    rw [Int.floor_eq_iff]
    constructor
    · push_cast; linarith
    · push_cast; linarith
  unfold qfloor
  rw [hre, hfl]
  push_cast
  ring

/-- The reversed ramp `smoothstep 35 2` vanishes at and above `35`. -/
theorem smoothstep_rev_zero (x : ℚ) (h : 35 ≤ x) : smoothstep 35 2 x = 0 := by
  unfold smoothstep saturate
  have hq : (x - 35) / (2 - 35) ≤ 0 := by
    apply div_nonpos_of_nonneg_of_nonpos <;> linarith
  rw [max_eq_right hq, min_eq_left (by norm_num : (0 : ℚ) ≤ 1)]
  ring

/-- The reversed ramp `smoothstep 35 2` attains `1` exactly at and below `2`. -/
theorem smoothstep_rev_one_iff (x : ℚ) : smoothstep 35 2 x = 1 ↔ x ≤ 2 := by
  have hqx : (x - 35) / (2 - 35) = (35 - x) / 33 := by ring
  simp only [smoothstep, saturate, hqx]
  set t := min (max ((35 - x) / 33) 0) 1 with ht
  constructor
  · intro h
    by_contra hx
    push_neg at hx
    have hq : (35 - x) / 33 < 1 := by
      rw [div_lt_one (by norm_num : (0 : ℚ) < 33)]; linarith
    have ht1 : t < 1 :=
      lt_of_le_of_lt (min_le_left _ _) (max_lt hq (by norm_num))
    have ht0 : 0 ≤ t := le_min (le_max_right _ _) (by norm_num)
    have hpos : 0 < (1 - t) ^ 2 * (2 * t + 1) :=
      mul_pos (pow_pos (by linarith) 2) (by linarith)
    nlinarith [hpos, h]
  · intro h
    have hq : 1 ≤ (35 - x) / 33 := by
      rw [le_div_iff₀ (by norm_num : (0 : ℚ) < 33)]; linarith
    rw [ht, max_eq_left (le_trans (by norm_num) hq), min_eq_right hq]
    ring

/-! ## Claim theorems -/

/-- C1: after the compute kernel has run for a vertex whose base entry has
`y = 0`, the position buffer entry equals
`base + (snapX, 0, snapZ) + (0, finalHeight, 0)` with
`snapX/snapZ = floor(camera/cellSize)·cellSize` and
`finalHeight = max(rawHeight − drop, waterFloor − drop)`,
`rawHeight = (fbm(base + snapOffset) + heightOffset)·heightScale` and
`drop = (dist(base + snapOffset, camera.xz)/horizonDistance)^4 ·
horizonCurve · 100`. -/
theorem compute_position_invariant (ν : Vec3 → ℚ) (len : ℚ × ℚ → ℚ)
    (u : Uniforms) (base : Vec3) (hy : base.y = 0) :
    computeUpdate ν len u base =
      base + ⟨(snapOffset u).1, 0, (snapOffset u).2⟩ +
        ⟨0, finalHeightOf ν len u base, 0⟩ := by
  obtain ⟨bx, b2, bz⟩ := base
  simp only at hy
  subst hy
  simp only [computeUpdate, finalHeightOf, rawHeightOf, snapOffset, curveDrop,
    Vec3.add_def, Vec3.mk.injEq, add_zero, zero_add]

/-- Witness for C1 at a concrete flat base vertex, noise function, length
function and the default uniforms. -/
theorem compute_position_invariant_witness :
    (Vec3.mk 1 0 2).y = 0 ∧
    computeUpdate (fun _ => 0) len0 defaultUniforms ⟨1, 0, 2⟩ =
      ⟨1, 0, 2⟩ +
        ⟨(snapOffset defaultUniforms).1, 0, (snapOffset defaultUniforms).2⟩ +
        ⟨0, finalHeightOf (fun _ => 0) len0 defaultUniforms ⟨1, 0, 2⟩, 0⟩ :=
  ⟨rfl, compute_position_invariant (fun _ => 0) len0 defaultUniforms ⟨1, 0, 2⟩ rfl⟩

/-- C3: for every camera position, both snap offset components are exact
integer multiples of `cellSize = 512/100`, and each camera coordinate is
within (strictly less than) one cell of its snapped value. -/
theorem snap_offset_cell_aligned (u : Uniforms)
    (h : u.uSegmentSize = cellSize) :
    ((∃ kx : ℤ, (snapOffset u).1 = (kx : ℚ) * cellSize) ∧
      (∃ kz : ℤ, (snapOffset u).2 = (kz : ℚ) * cellSize)) ∧
    |u.uCameraPosition.x - (snapOffset u).1| < cellSize ∧
    |u.uCameraPosition.z - (snapOffset u).2| < cellSize := by
  have hx := snap_remainder u.uCameraPosition.x cellSize cellSize_pos
  have hz := snap_remainder u.uCameraPosition.z cellSize cellSize_pos
  simp only [snapOffset, h]
  refine ⟨⟨⟨⌊u.uCameraPosition.x / cellSize⌋, rfl⟩,
    ⟨⌊u.uCameraPosition.z / cellSize⌋, rfl⟩⟩, ?_, ?_⟩
  · rw [abs_of_nonneg hx.1]; exact hx.2
  · rw [abs_of_nonneg hz.1]; exact hz.2

/-- Witness for C3 at the default uniforms (whose `uSegmentSize` is the
constructor's `512/100`). -/
theorem snap_offset_cell_aligned_witness :
    defaultUniforms.uSegmentSize = cellSize ∧
    (((∃ kx : ℤ, (snapOffset defaultUniforms).1 = (kx : ℚ) * cellSize) ∧
      (∃ kz : ℤ, (snapOffset defaultUniforms).2 = (kz : ℚ) * cellSize)) ∧
    |defaultUniforms.uCameraPosition.x - (snapOffset defaultUniforms).1| <
      cellSize ∧
    |defaultUniforms.uCameraPosition.z - (snapOffset defaultUniforms).2| <
      cellSize) :=
  ⟨rfl, snap_offset_cell_aligned defaultUniforms rfl⟩

/-- C4: the color stage's reconstructed height of a compute-stage output
position — `position.y` plus the recomputed drop — equals the uncurved
clamped height `max(rawHeight, waterFloor)`, for every noise function,
length function, configuration and base vertex (both stages evaluated with
the same camera, horizon distance and horizon curve). -/
theorem shading_height_inverts_drop (ν : Vec3 → ℚ) (len : ℚ × ℚ → ℚ)
    (u : Uniforms) (base : Vec3) :
    shadingHeight len u (computeUpdate ν len u base) =
      max (rawHeightOf ν u base) u.waterFloor := by
  simp only [shadingHeight, computeUpdate, curveDrop, rawHeightOf, snapOffset,
    Vec3.add_def]
  rw [max_sub_sub_right, sub_add_cancel]

/-- C7: the fbm loop runs zero times for a zero or negative octave count,
so `fbm` returns exactly `0`, for every position and parameter set. -/
theorem fbm_nonpositive_octaves (ν : Vec3 → ℚ) (pos : Vec3) (octaves : ℤ)
    (frequency amplitude lacunarity persistence : ℚ) (h : octaves ≤ 0) :
    fbm ν pos octaves frequency amplitude lacunarity persistence = 0 := by
  unfold fbm
  rw [Int.toNat_of_nonpos h]
  rfl

/-- Witness for C7 at a concrete negative octave count. -/
theorem fbm_nonpositive_octaves_witness :
    (-3 : ℤ) ≤ 0 ∧
    fbm (fun v => v.x + 1) ⟨5, 0, 7⟩ (-3) (6/100) (2/10) (16/10) (9/10) = 0 :=
  ⟨by norm_num,
    fbm_nonpositive_octaves (fun v => v.x + 1) ⟨5, 0, 7⟩ (-3)
      (6/100) (2/10) (16/10) (9/10) (by norm_num)⟩

/-- C9: the shadow-normalizing divisor
`max(shadowRadius · 2 · max(shipHeight/10 + 1, 0.1), 0.1)` is at least
`0.1`, hence strictly positive, for every radius (including zero or
negative) and every actor height (including negative). -/
theorem shadow_size_guarded (shadowRadius shipHeight : ℚ) :
    1 / 10 ≤ finalShadowSizeOf shadowRadius shipHeight ∧
      0 < finalShadowSizeOf shadowRadius shipHeight := by
  unfold finalShadowSizeOf
  exact ⟨le_max_right _ _,
    lt_of_lt_of_le (by norm_num) (le_max_right _ _)⟩

/-- C2 counterexample: with all-white textures, the default uniforms, the
camera/actor/fragment at the origin and screen pixel (0,0), running the
retro filter before the shadow darkening (as the code does) yields
(1/3, 1/3, 1/3), while running it after the shadow compositing (as the
spec orders the stages) yields (0, 0, 0) — so the retro filter is not the
last transform applied to the fragment color. -/
theorem retro_before_shadow_counterexample :
    colorNode len0 constTex 0 1 defaultUniforms (0, 0) ⟨0, 0, 0⟩ ≠
      colorNodeSpecOrder len0 constTex 0 1 defaultUniforms (0, 0) ⟨0, 0, 0⟩ := by
  have hb : bayerAt (bayerIndex (0, 0)) = 0 / 64 := rfl
  have hterr : terrainColor len0 constTex defaultUniforms ⟨0, 0, 0⟩ =
      ⟨1, 1, 1⟩ := by
    norm_num [terrainColor, constTex, Vec4.rgb, mix3, qmix, len0,
      defaultUniforms, smoothstep, saturate, shadingHeight, curveDrop,
      max_def, min_def, Vec3.mk.injEq]
  have hfac : finalShadowFactorOf len0 constTex 0 1 defaultUniforms
      ⟨0, 0, 0⟩ = 1 / 2 := by
    norm_num [finalShadowFactorOf, shadowUVof, shadowCoord, finalShadowSizeOf,
      shipHeightOf, shadingHeight, curveDrop, len0, constTex, defaultUniforms,
      smoothstep, saturate, max_def, min_def]
  have h1 : applyRetroEffects (0, 0) ⟨1, 1, 1⟩ 4 = ⟨2/3, 2/3, 2/3⟩ := by
    simp only [applyRetroEffects, hb, qfloor, Vec3.mk.injEq]
    norm_num
  have h2 : applyRetroEffects (0, 0) ⟨1/2, 1/2, 1/2⟩ 4 = ⟨0, 0, 0⟩ := by
    simp only [applyRetroEffects, hb, qfloor, Vec3.mk.injEq]
    norm_num
  have hcode : colorNode len0 constTex 0 1 defaultUniforms (0, 0) ⟨0, 0, 0⟩ =
      ⟨1/3, 1/3, 1/3, 1⟩ := by
    rw [colorNode_stage_decomposition, hterr, hfac, h1]
    norm_num [Vec4.mk.injEq]
  have hspec : colorNodeSpecOrder len0 constTex 0 1 defaultUniforms (0, 0)
      ⟨0, 0, 0⟩ = ⟨0, 0, 0, 1⟩ := by
    simp only [colorNodeSpecOrder, hterr, hfac]
    rw [(by norm_num [Vec3.mk.injEq] :
      (Vec3.mk ((1 : ℚ) * (1 - 1/2)) (1 * (1 - 1/2)) (1 * (1 - 1/2))) =
        ⟨1/2, 1/2, 1/2⟩), h2]
  rw [hcode, hspec]
  simp only [ne_eq, Vec4.mk.injEq]
  norm_num

/-- C2 (amended): the retro post-filter runs after biome texture blending
and after fog mixing, but BEFORE shadow compositing: the fragment value is
the retro-filtered fogged terrain color darkened by the shadow factor,
so the shadow darkening — not the retro filter — is the last transform. -/
theorem retro_after_fog_before_shadow (len : ℚ × ℚ → ℚ) (tex : Textures)
    (sinA cosA : ℚ) (u : Uniforms) (pixelPos : ℚ × ℚ) (pos : Vec3) :
    colorNode len tex sinA cosA u pixelPos pos =
      ⟨(applyRetroEffects pixelPos (terrainColor len tex u pos) 4).x *
          (1 - finalShadowFactorOf len tex sinA cosA u pos),
        (applyRetroEffects pixelPos (terrainColor len tex u pos) 4).y *
          (1 - finalShadowFactorOf len tex sinA cosA u pos),
        (applyRetroEffects pixelPos (terrainColor len tex u pos) 4).z *
          (1 - finalShadowFactorOf len tex sinA cosA u pos), 1⟩ := rfl

/-- C5 counterexample: at yaw `π/2` (sine `1`, cosine `0`), actor at the
origin with zero forward offset and fragment at world `(1, 0)`, the code's
rotated local shadow coordinate is `(0, 1)`, whereas rotating the
difference by the NEGATIVE yaw, as the spec states, gives `(0, −1)`. -/
theorem shadow_rotation_counterexample :
    shadowCoord 1 0 ⟨0, 0, 0⟩ 0 ⟨1, 0, 0⟩ ≠
      shadowCoordSpec 1 0 ⟨0, 0, 0⟩ 0 ⟨1, 0, 0⟩ := by
  simp only [shadowCoord, shadowCoordSpec, rotateBy, ne_eq, Prod.mk.injEq]
  norm_num

/-- C5 (amended): the lookup coordinate is obtained by subtracting the
actor's world (x, z) and rotating the difference by the actor's yaw angle
ITSELF (the uniform set each frame from the player's `rotation.y`):
equivalently, the code's coordinate is the spec's negative-yaw
construction evaluated at the negated yaw. -/
theorem shadow_rotation_is_positive_yaw (sinA cosA : ℚ) (sp : Vec3)
    (off : ℚ) (pos : Vec3) :
    shadowCoord sinA cosA sp off pos =
      shadowCoordSpec (-sinA) cosA sp off pos := by
  simp [shadowCoord, shadowCoordSpec, rotateBy]

/-- C6 counterexample: at screen pixel (0, 0) — Bayer threshold `0` — the
lattice color `(1/3, 1/3, 1/3)` is NOT preserved by the
dither-and-posterize transform with `N = 4` (it drops to `(0, 0, 0)`). -/
theorem dither_idempotence_counterexample :
    applyRetroEffects (0, 0) ⟨1/3, 1/3, 1/3⟩ 4 ≠ ⟨1/3, 1/3, 1/3⟩ := by
  have hb : bayerAt (bayerIndex (0, 0)) = 0 / 64 := rfl
  simp only [applyRetroEffects, hb, qfloor, ne_eq, Vec3.mk.injEq]
  norm_num

/-- C6 (amended): the dither-and-posterize transform with `N = 4` returns
an already-lattice color unchanged exactly when the pixel's Bayer
threshold `t` is large enough that the dither offset `(t − 0.8)·0.6` stays
within `[−1/6, 1/6)`, i.e. `t ≥ 47/90`; at pixels with smaller thresholds
the transform shifts lattice colors down one level. -/
theorem dither_fixes_lattice_on_high_threshold (pixelPos : ℚ × ℚ) (c : Vec3)
    (hx : ∃ k : ℕ, k ≤ 3 ∧ c.x = (k : ℚ) / 3)
    (hy : ∃ k : ℕ, k ≤ 3 ∧ c.y = (k : ℚ) / 3)
    (hz : ∃ k : ℕ, k ≤ 3 ∧ c.z = (k : ℚ) / 3)
    (ht : 47 / 90 ≤ bayerAt (bayerIndex pixelPos)) :
    applyRetroEffects pixelPos c 4 = c := by
  have hle := bayerAt_le (bayerIndex pixelPos)
  obtain ⟨cx, cy, cz⟩ := c
  simp only [applyRetroEffects, Vec3.mk.injEq]
  exact ⟨retro_channel_fixed _ _ hx ht hle, retro_channel_fixed _ _ hy ht hle,
    retro_channel_fixed _ _ hz ht hle⟩

/-- Witness for the amended C6 at pixel (1, 0) (threshold `48/64`) and
the lattice color `(1/3, 2/3, 1)`. -/
theorem dither_fixes_lattice_witness :
    (∃ k : ℕ, k ≤ 3 ∧ (Vec3.mk (1/3) (2/3) 1).x = (k : ℚ) / 3) ∧
    (∃ k : ℕ, k ≤ 3 ∧ (Vec3.mk (1/3) (2/3) 1).y = (k : ℚ) / 3) ∧
    (∃ k : ℕ, k ≤ 3 ∧ (Vec3.mk (1/3) (2/3) 1).z = (k : ℚ) / 3) ∧
    47 / 90 ≤ bayerAt (bayerIndex (1, 0)) ∧
    applyRetroEffects (1, 0) ⟨1/3, 2/3, 1⟩ 4 = ⟨1/3, 2/3, 1⟩ := by
  have hb : bayerAt (bayerIndex (1, 0)) = 48 / 64 := rfl
  have hx : ∃ k : ℕ, k ≤ 3 ∧ (Vec3.mk (1/3) (2/3) 1).x = (k : ℚ) / 3 :=
    ⟨1, by norm_num⟩
  have hy : ∃ k : ℕ, k ≤ 3 ∧ (Vec3.mk (1/3) (2/3) 1).y = (k : ℚ) / 3 :=
    ⟨2, by norm_num⟩
  have hz : ∃ k : ℕ, k ≤ 3 ∧ (Vec3.mk (1/3) (2/3) 1).z = (k : ℚ) / 3 :=
    ⟨3, by norm_num⟩
  have ht : 47 / 90 ≤ bayerAt (bayerIndex (1, 0)) := by rw [hb]; norm_num
  exact ⟨hx, hy, hz, ht,
    dither_fixes_lattice_on_high_threshold (1, 0) ⟨1/3, 2/3, 1⟩ hx hy hz ht⟩

/-- C8: whenever the normalized shadow coordinate falls outside `[0, 1]`
in either axis, the selected shadow alpha — and with it the whole shadow
factor — is exactly `0`, so the compositing multiplies the retro color by
exactly `1` and contributes no darkening. -/
theorem shadow_zero_outside_bounds (len : ℚ × ℚ → ℚ) (tex : Textures)
    (sinA cosA : ℚ) (u : Uniforms) (pixelPos : ℚ × ℚ) (pos : Vec3)
    (h : (shadowUVof len sinA cosA u pos).1 < 0 ∨
      1 < (shadowUVof len sinA cosA u pos).1 ∨
      (shadowUVof len sinA cosA u pos).2 < 0 ∨
      1 < (shadowUVof len sinA cosA u pos).2) :
    finalShadowFactorOf len tex sinA cosA u pos = 0 ∧
    colorNode len tex sinA cosA u pixelPos pos =
      ⟨(applyRetroEffects pixelPos (terrainColor len tex u pos) 4).x * 1,
        (applyRetroEffects pixelPos (terrainColor len tex u pos) 4).y * 1,
        (applyRetroEffects pixelPos (terrainColor len tex u pos) 4).z * 1,
        1⟩ := by
  have hf : finalShadowFactorOf len tex sinA cosA u pos = 0 := by
    simp only [finalShadowFactorOf]
    rw [if_neg]
    · norm_num [saturate]
    · rintro ⟨h1, h2, h3, h4⟩
      rcases h with h' | h' | h' | h' <;> linarith
  refine ⟨hf, ?_⟩
  rw [colorNode_stage_decomposition, hf]
  norm_num

/-- Witness for C8: fragment at world `(1000, 0)` with the default
uniforms puts the shadow UV far beyond `1` on the first axis. -/
theorem shadow_zero_outside_bounds_witness :
    1 < (shadowUVof len0 0 1 defaultUniforms ⟨1000, 0, 0⟩).1 ∧
    (finalShadowFactorOf len0 constTex 0 1 defaultUniforms ⟨1000, 0, 0⟩ = 0 ∧
    colorNode len0 constTex 0 1 defaultUniforms (0, 0) ⟨1000, 0, 0⟩ =
      ⟨(applyRetroEffects (0, 0)
          (terrainColor len0 constTex defaultUniforms ⟨1000, 0, 0⟩) 4).x * 1,
        (applyRetroEffects (0, 0)
          (terrainColor len0 constTex defaultUniforms ⟨1000, 0, 0⟩) 4).y * 1,
        (applyRetroEffects (0, 0)
          (terrainColor len0 constTex defaultUniforms ⟨1000, 0, 0⟩) 4).z * 1,
        1⟩) := by
  have huv : 1 < (shadowUVof len0 0 1 defaultUniforms ⟨1000, 0, 0⟩).1 := by
    norm_num [shadowUVof, shadowCoord, finalShadowSizeOf, shipHeightOf,
      shadingHeight, curveDrop, len0, defaultUniforms, max_def, min_def]
  exact ⟨huv, shadow_zero_outside_bounds len0 constTex 0 1 defaultUniforms
    (0, 0) ⟨1000, 0, 0⟩ (Or.inr (Or.inl huv))⟩

/-- C10: when the actor's height above the reconstructed terrain is at
least `35`, the height fade `smoothstep(35, 2, shipHeight)` is `0`, the
shadow factor vanishes and the fragment color is exactly the unshadowed
retro color; and the fade equals `1` (fully opaque) exactly at heights of
`2` or below. -/
theorem shadow_fade_above_max_height :
    (∀ (len : ℚ × ℚ → ℚ) (tex : Textures) (sinA cosA : ℚ) (u : Uniforms)
        (pixelPos : ℚ × ℚ) (pos : Vec3),
        35 ≤ shipHeightOf len u pos →
        smoothstep 35 2 (shipHeightOf len u pos) = 0 ∧
        colorNode len tex sinA cosA u pixelPos pos =
          ⟨(applyRetroEffects pixelPos (terrainColor len tex u pos) 4).x,
            (applyRetroEffects pixelPos (terrainColor len tex u pos) 4).y,
            (applyRetroEffects pixelPos (terrainColor len tex u pos) 4).z,
            1⟩) ∧
    (∀ x : ℚ, smoothstep 35 2 x = 1 ↔ x ≤ 2) := by
  constructor
  · intro len tex sinA cosA u pixelPos pos hh
    have hfade : smoothstep 35 2 (shipHeightOf len u pos) = 0 :=
      smoothstep_rev_zero _ hh
    refine ⟨hfade, ?_⟩
    have hf : finalShadowFactorOf len tex sinA cosA u pos = 0 := by
      simp only [finalShadowFactorOf, hfade]
      norm_num [saturate]
    rw [colorNode_stage_decomposition, hf]
    norm_num
  · exact smoothstep_rev_one_iff

/-- Witness for C10: fragment at world height `−50` with the default
uniforms (actor at height `0`) gives an actor height of `50 ≥ 35` above
the reconstructed terrain. -/
theorem shadow_fade_above_max_height_witness :
    35 ≤ shipHeightOf len0 defaultUniforms ⟨0, -50, 0⟩ ∧
    (smoothstep 35 2 (shipHeightOf len0 defaultUniforms ⟨0, -50, 0⟩) = 0 ∧
    colorNode len0 constTex 0 1 defaultUniforms (0, 0) ⟨0, -50, 0⟩ =
      ⟨(applyRetroEffects (0, 0)
          (terrainColor len0 constTex defaultUniforms ⟨0, -50, 0⟩) 4).x,
        (applyRetroEffects (0, 0)
          (terrainColor len0 constTex defaultUniforms ⟨0, -50, 0⟩) 4).y,
        (applyRetroEffects (0, 0)
          (terrainColor len0 constTex defaultUniforms ⟨0, -50, 0⟩) 4).z,
        1⟩) := by
  have hh : 35 ≤ shipHeightOf len0 defaultUniforms ⟨0, -50, 0⟩ := by
    norm_num [shipHeightOf, shadingHeight, curveDrop, len0, defaultUniforms]
  exact ⟨hh, shadow_fade_above_max_height.1 len0 constTex 0 1 defaultUniforms
    (0, 0) ⟨0, -50, 0⟩ hh⟩

end Airship
